import Mathlib

/-!
Verification of the sandboxed execution engine in `saotri_bench/sandbox.py`.

The Python module is shallowly embedded: its exception classes become an
inductive error type, the `ast` walk performed by `_check_imports` becomes a
pass over the list of syntax-tree nodes, candidate programs become a small
statement language whose execution inside the restricted namespace is given
an explicit operational semantics, and the thread/process timeout machinery
of `execute_code` / `execute_with_timeout` is modelled by traces that record
the observable scheduling decisions (daemon flag, terminate/kill escalation,
queue contents at the deadline).  Wall-clock time is abstracted: a worker
whose computation diverges is still running when the watchdog fires, and a
Boolean race oracle (`slowWorker`) covers the case of a terminating worker
that is nevertheless still running at the deadline.
-/

/-- Error taxonomy of `sandbox.py` (lines 12-33): the three leaf exception
classes actually raised by the engine.  `SandboxError` itself is never
raised directly and `TimeoutError`, `ImportViolationError`, `ExecutionError`
are its only subclasses, each carrying a message. -/
inductive SandboxErr where
  | timeoutError (msg : String)
  | importViolationError (msg : String)
  | executionError (msg : String)
deriving DecidableEq

/-- Python class name of a raised sandbox error, used to compare error kinds
the way a caller catching exceptions by class would. -/
def SandboxErr.className : SandboxErr → String
  | .timeoutError _ => "TimeoutError"
  | .importViolationError _ => "ImportViolationError"
  | .executionError _ => "ExecutionError"

/-- Root of a dotted module name: `name.split(".")[0]` (sandbox.py lines 54,
62, 97), i.e. the characters before the first dot. -/
def rootName (s : String) : String :=
  String.mk (s.data.takeWhile (fun c => c ≠ '.'))

/-- Python `repr` of a list of strings, as produced by the f-strings
`f"... Allowed imports: {allowed_imports}"` in sandbox.py. -/
def pyStrListRepr (xs : List String) : String :=
  "[" ++ String.intercalate ", " (xs.map (fun s => "\x27" ++ s ++ "\x27")) ++ "]"

/-- Behaviour of a callable when invoked: it returns a value, raises an
exception (class name and message), never terminates, or brings the whole
interpreter down without raising (a hard crash, e.g. a C-level fault). -/
inductive CallResult' where
  | returns' (n : Int)
  | raisesExc (excName msg : String)
  | diverges
  | dies
deriving DecidableEq

/-- Closed set of callable behaviours appearing in the verified scenarios.
`double` is the spec scenario `def f(x): return x * 2`; the others model a
constant function, an always-raising function, an infinite loop and a
hard-crashing function. -/
inductive FuncDef where
  | double
  | constFn (n : Int)
  | raiserFn (excName msg : String)
  | looper
  | dier
deriving DecidableEq

/-- Values living in an execution namespace.  A function object records
whether it can be pickled for transfer to a `spawn`-context process: a
function created by `exec` inside a throwaway namespace cannot be pickled by
reference (its module attribute lookup fails), while an importable
module-level function can. -/
inductive PyValue where
  | vInt (n : Int)
  | vStr (s : String)
  | vBool (b : Bool)
  | vNone
  | vModule (name : String)
  | vFunc (fn : FuncDef) (picklable : Bool)
deriving DecidableEq

/-- Python `callable` on modelled values: only function objects are
callable among the values our candidates construct. -/
def isCallable : PyValue → Bool
  | .vFunc _ _ => true
  | _ => false

/-- Calling a modelled function object with positional arguments
(`func(*args)`). -/
def callFn : FuncDef → List PyValue → CallResult'
  | .double, [.vInt n] => .returns' (n * 2)
  | .double, _ => .raisesExc "TypeError" "bad arguments"
  | .constFn n, _ => .returns' n
  | .raiserFn n m, _ => .raisesExc n m
  | .looper, _ => .diverges
  | .dier, _ => .dies

/-- An execution namespace: the mapping built by `execute_code` /
`_execute_in_process` from symbol names to values.  The `__builtins__`
entry is kept implicitly (its allowlist is threaded separately); user-level
bindings are an association list where the most recent binding wins. -/
def Namespace := List (String × PyValue)

/-- Binding a name in a namespace (`namespace[name] = value`). -/
def bindNs (n : String) (v : PyValue) (ns : Namespace) : Namespace :=
  (n, v) :: ns

/-- Name lookup in a namespace (`name in namespace` / `namespace[name]`). -/
def lookupNs (n : String) (ns : Namespace) : Option PyValue :=
  match ns with
  | [] => none
  | (k, v) :: rest => if k = n then some v else lookupNs n rest

/-- One node of the parsed syntax tree as seen by the `for node in
ast.walk(tree)` loop of `_check_imports` (sandbox.py lines 51-75), keeping
exactly the fields that loop inspects: `ast.Import` (the dotted names of its
aliases), `ast.ImportFrom` (its optional module and names), a call whose
function is a plain name (`ast.Call` with `ast.Name` func), a call with any
other callee, and every other node kind. -/
inductive AstNode where
  | importNode (names : List String)
  | importFromNode (module : Option String) (names : List String)
  | callNameNode (funcName : String)
  | callOtherNode
  | otherNode
deriving DecidableEq

/-- Body of the `for node in ast.walk(tree)` loop of `_check_imports` for a
single node (sandbox.py lines 52-75): `ast.Import` aliases are checked one
by one against the allowlist by root name, an `ast.ImportFrom` is checked
only `if node.module:` is set, and a direct call to the name `__import__`
is rejected. -/
def checkNode (allowed_imports : List String) : AstNode → Except SandboxErr Unit
  | .importNode names => checkImportNames names
  | .importFromNode mod _ =>
    match mod with
    | some m =>
      let module_name := rootName m
      if module_name ∈ allowed_imports then .ok ()
      else .error (.importViolationError
        ("Import from \x27" ++ module_name ++ "\x27 is not allowed. Allowed imports: "
          ++ pyStrListRepr allowed_imports))
    | none => .ok ()
  | .callNameNode f =>
    if f = "__import__" then
      .error (.importViolationError
        ("Use of __import__() is not allowed. Allowed imports: "
          ++ pyStrListRepr allowed_imports))
    else .ok ()
  | .callOtherNode => .ok ()
  | .otherNode => .ok ()
where
  checkImportNames : List String → Except SandboxErr Unit
    | [] => .ok ()
    | a :: rest =>
      let module_name := rootName a
      if module_name ∈ allowed_imports then checkImportNames rest
      else .error (.importViolationError
        ("Import \x27" ++ module_name ++ "\x27 is not allowed. Allowed imports: "
          ++ pyStrListRepr allowed_imports))

/-- The walk loop of `_check_imports` over the full node sequence produced
by `ast.walk`: the first offending node raises, all other nodes pass. -/
def checkWalk (allowed_imports : List String) : List AstNode → Except SandboxErr Unit
  | [] => .ok ()
  | n :: rest =>
    match checkNode allowed_imports n with
    | .error e => .error e
    | .ok _ => checkWalk allowed_imports rest

/-- A Python syntax tree with the node kinds relevant to the import gate;
children lists give arbitrary nesting (blocks, comprehensions, call
arguments), so a load construct can sit at any depth. -/
inductive PyAst where
  | importNode (names : List String)
  | importFromNode (module : Option String) (names : List String)
  | callNameNode (funcName : String) (args : List PyAst)
  | callOtherNode (args : List PyAst)
  | other (children : List PyAst)

mutual
/-- The node sequence `ast.walk` yields for one tree: the node itself and
every descendant.  `ast.walk` guarantees order-independent full coverage;
we enumerate parent before children. -/
def walkTree : PyAst → List AstNode
  | .importNode names => [.importNode names]
  | .importFromNode mod names => [.importFromNode mod names]
  | .callNameNode f args => .callNameNode f :: walkForest args
  | .callOtherNode args => .callOtherNode :: walkForest args
  | .other children => .otherNode :: walkForest children
termination_by structural t => t

/-- `ast.walk` output for a list of sibling trees (e.g. a module body). -/
def walkForest : List PyAst → List AstNode
  | [] => []
  | t :: ts => walkTree t ++ walkForest ts
termination_by structural ts => ts
end

/-- A node that the import gate must reject: a static import with a
non-allowlisted root, an `ImportFrom` with a set module whose root is not
allowlisted, or a direct call to `__import__`. -/
def nodeViolates (allowed_imports : List String) : AstNode → Bool
  | .importNode names => names.any (fun a => !(decide (rootName a ∈ allowed_imports)))
  | .importFromNode (some m) _ => !(decide (rootName m ∈ allowed_imports))
  | .importFromNode none _ => false
  | .callNameNode f => f = "__import__"
  | .callOtherNode => false
  | .otherNode => false

/-- A violating node occurs somewhere in a node sequence. -/
def anyViolates (allowed_imports : List String) (l : List AstNode) : Bool :=
  l.any (nodeViolates allowed_imports)

/-- Statements of the candidate language: function definition, a static
module load (`import a, b.c`), a from-form load (`from m import x`, with
`module = none` for a relative `from . import x`), a call `__import__("m")`,
a call of the guarded import hook reached through an alias (the two
statements `g = __import__` then `g("m")`, whose syntax tree contains no
call with the name `__import__`), assignment of a value, a raise, and an
infinite loop `while True: pass`. -/
inductive Stmt where
  | defFunc (name : String) (fn : FuncDef)
  | importS (modules : List String)
  | fromImport (module : Option String) (names : List String)
  | importCall (module : String)
  | aliasImportCall (module : String)
  | assign (name : String) (v : PyValue)
  | raiseS (excName msg : String)
  | whileTrue
deriving DecidableEq

/-- The `ast.walk` node sequence contributed by one statement.  Nodes that
the gate never inspects beyond their kind (function definitions, their
bodies, assignments, raises, loops) collapse to `otherNode`s; note that the
aliased hook call contributes a call node whose function name is `g`, not
`__import__`. -/
def astNodesOfStmt : Stmt → List AstNode
  | .defFunc _ _ => [.otherNode]
  | .importS mods => [.importNode mods]
  | .fromImport mod names => [.importFromNode mod names]
  | .importCall _ => [.otherNode, .callNameNode "__import__"]
  | .aliasImportCall _ => [.otherNode, .otherNode, .callNameNode "g"]
  | .assign _ _ => [.otherNode]
  | .raiseS _ _ => [.otherNode]
  | .whileTrue => [.otherNode]

/-- Node sequence of a whole module body. -/
def astNodesOfProg (stmts : List Stmt) : List AstNode :=
  stmts.flatMap astNodesOfStmt

/-- A candidate source text, abstracted by what `ast.parse` does with it:
either it raises a `SyntaxError` with the given message, or it parses into
a program. -/
inductive Candidate where
  | invalid (msg : String)
  | prog (stmts : List Stmt)
deriving DecidableEq

/-- Embedding of `_check_imports(code, allowed_imports)` (sandbox.py lines
36-75): `ast.parse` failure raises `ExecutionError("Syntax error: ...")`
(line 49), then every node of the tree is checked. -/
def _check_imports (code : Candidate) (allowed_imports : List String) :
    Except SandboxErr Unit :=
  match code with
  | .invalid msg => .error (.executionError ("Syntax error: " ++ msg))
  | .prog stmts => checkWalk allowed_imports (astNodesOfProg stmts)

/-- Key set of the curated `safe_builtins` dictionary built by
`_create_restricted_builtins` (sandbox.py lines 106-180). -/
def safe_builtin_names : List String :=
  ["bool", "int", "float", "str", "list", "dict", "set", "frozenset",
   "tuple", "bytes", "bytearray", "complex", "type", "object",
   "abs", "all", "any", "ascii", "bin", "callable", "chr", "divmod",
   "enumerate", "filter", "format", "getattr", "hasattr", "hash", "hex",
   "id", "isinstance", "issubclass", "iter", "len", "map", "max", "min",
   "next", "oct", "ord", "pow", "print", "range", "repr", "reversed",
   "round", "setattr", "slice", "sorted", "sum", "zip",
   "Exception", "ValueError", "TypeError", "KeyError", "IndexError",
   "AttributeError", "RuntimeError", "StopIteration", "ZeroDivisionError",
   "AssertionError", "NotImplementedError",
   "True", "False", "None", "__import__", "__name__", "__doc__"]

/-- The restricted builtins mapping, abstracted to the data the claims
depend on: the curated key set and the allowlist captured by the
`_restricted_import` closure stored under `__import__`. -/
structure RestrictedBuiltins where
  names : List String
  hook_allowlist : List String
deriving DecidableEq

/-- Embedding of `_create_restricted_builtins(allowed_imports)` (sandbox.py
lines 78-181); the `None` default for the argument normalizes to `[]`. -/
def _create_restricted_builtins (allowed_imports : List String) : RestrictedBuiltins :=
  { names := safe_builtin_names, hook_allowlist := allowed_imports }

/-- Modelled from the host runtime: the real `__import__`.  `hostModules`
lists the modules importable on the host; importing anything else raises
`ModuleNotFoundError` (an `ImportError` subclass) with the message Python uses. -/
def realImport (hostModules : List String) (name : String) :
    Except (String × String) PyValue :=
  if rootName name ∈ hostModules then .ok (.vModule (rootName name))
  else .error ("ModuleNotFoundError", "No module named \x27" ++ name ++ "\x27")

/-- Embedding of the guarded hook `_restricted_import` (sandbox.py lines
89-103): the requested root must be allowlisted, otherwise a builtin
`ImportError` is raised (note: not an `ImportViolationError`); an
allowlisted name is delegated to the real loader. -/
def _restricted_import (allowed_imports hostModules : List String)
    (name : String) : Except (String × String) PyValue :=
  let root_module := rootName name
  if root_module ∈ allowed_imports then realImport hostModules name
  else .error ("ImportError",
    "Import \x27" ++ root_module ++ "\x27 is not allowed. Allowed imports: "
      ++ pyStrListRepr allowed_imports)

/-- The namespace prepared before `exec` (sandbox.py lines 255-264 and
197-202): restricted builtins plus one eager binding per allowlisted module
that the host can actually import; an `ImportError` during pre-import is
silently swallowed (`except ImportError: pass`). -/
def initialNamespace (allowed_imports hostModules : List String) : Namespace :=
  allowed_imports.foldl
    (fun ns module_name =>
      match realImport hostModules module_name with
      | .ok v => bindNs module_name v ns
      | .error _ => ns)
    []

/-- Outcome of `exec(code, namespace)`: the module body ran to completion
leaving a namespace, raised an exception (class name and message), or never
terminates. -/
inductive ExecOut where
  | finished (ns : Namespace)
  | raised (excName msg : String)
  | diverge

/-- The alias loop of an `import a, b.c` statement at run time: each dotted
name is resolved through the `__import__` entry of the namespace — the
`_restricted_import` closure — and bound under its root name; the first
failure raises out of the statement. -/
def importModules (allowed_imports hostModules : List String) :
    List String → Namespace → Except (String × String) Namespace
  | [], ns => .ok ns
  | a :: more, ns =>
    match _restricted_import allowed_imports hostModules a with
    | .error e => .error e
    | .ok v => importModules allowed_imports hostModules more (bindNs (rootName a) v ns)

/-- Operational semantics of executing the candidate statements inside
the restricted namespace.  Import statements and hook calls go through
`_restricted_import`, the closure stored as `__import__` in the namespace
(a relative `from . import x` reaches it with an empty root).  Values bound
by `from ... import` are not further inspected by any claim and are bound
as `None` placeholders.  Functions created by `exec` are not picklable. -/
def execStmtList (allowed_imports hostModules : List String) :
    List Stmt → Namespace → ExecOut
  | [], ns => .finished ns
  | s :: rest, ns =>
    match s with
    | .defFunc n fn => execStmtList allowed_imports hostModules rest
        (bindNs n (.vFunc fn false) ns)
    | .importS mods =>
      match importModules allowed_imports hostModules mods ns with
      | .error (en, em) => .raised en em
      | .ok ns2 => execStmtList allowed_imports hostModules rest ns2
    | .fromImport mod names =>
      match _restricted_import allowed_imports hostModules (mod.getD "") with
      | .error (en, em) => .raised en em
      | .ok _ => execStmtList allowed_imports hostModules rest
          (names.foldl (fun ns2 x => bindNs x .vNone ns2) ns)
    | .importCall m =>
      match _restricted_import allowed_imports hostModules m with
      | .error (en, em) => .raised en em
      | .ok _ => execStmtList allowed_imports hostModules rest ns
    | .aliasImportCall m =>
      match _restricted_import allowed_imports hostModules m with
      | .error (en, em) => .raised en em
      | .ok _ => execStmtList allowed_imports hostModules rest ns
    | .assign n v => execStmtList allowed_imports hostModules rest (bindNs n v ns)
    | .raiseS en em => .raised en em
    | .whileTrue => .diverge

/-- Observable trace of one `execute_code` call (sandbox.py lines 226-298):
the returned value or raised error, whether the execution namespace was
built, whether the exec worker thread was started, the daemon
flag (line 277), and whether a stuck worker was left running (abandoned:
still alive after the single `thread.join(timeout=timeout)`, with no
further join and no kill — threads cannot be killed). -/
structure DefTrace where
  result : Except SandboxErr PyValue
  namespaceBuilt : Bool
  threadStarted : Bool
  threadDaemon : Bool
  workerAbandoned : Bool

/-- Trace of an `execute_code` call that aborted inside `_check_imports`,
before the namespace dictionary is created. -/
def gateAbortTrace (e : SandboxErr) : DefTrace :=
  { result := .error e, namespaceBuilt := false, threadStarted := false,
    threadDaemon := false, workerAbandoned := false }

/-- Embedding of `execute_code(code, function_name, allowed_imports,
timeout)` (sandbox.py lines 226-298).  `hostModules` models which modules
the host interpreter can import; `slowWorker` is the race oracle: `true`
when a terminating exec worker was nevertheless still running when
`thread.join(timeout=timeout)` returned (a diverging worker is always still
running).  The `None` default of `allowed_imports` normalizes to `[]` and
is modelled by passing `[]`.  Flow: static import check; namespace with
restricted builtins; eager pre-import of allowlisted modules; `exec` on a
daemon thread joined once with the budget; a live thread yields
`TimeoutError` and the worker is abandoned; then exec errors are re-raised
as `ExecutionError`, and the target symbol is looked up (`ExecutionError`
when absent or not callable). -/
def execute_code (code : Candidate) (function_name : String)
    (allowed_imports hostModules : List String) (timeout : Nat)
    (slowWorker : Bool) : DefTrace :=
  match _check_imports code allowed_imports with
  | .error e => gateAbortTrace e
  | .ok _ =>
    match code with
    | .invalid msg => gateAbortTrace (.executionError ("Syntax error: " ++ msg))
    | .prog stmts =>
      let out := execStmtList allowed_imports hostModules stmts
        (initialNamespace allowed_imports hostModules)
      match out with
      | .diverge =>
        { result := .error (.timeoutError
            ("Code definition timed out after " ++ toString timeout ++ " seconds")),
          namespaceBuilt := true, threadStarted := true, threadDaemon := true,
          workerAbandoned := true }
      | out' =>
        if slowWorker then
          { result := .error (.timeoutError
              ("Code definition timed out after " ++ toString timeout ++ " seconds")),
            namespaceBuilt := true, threadStarted := true, threadDaemon := true,
            workerAbandoned := true }
        else
          match out' with
          | .raised en em =>
            { result := .error (.executionError (en ++ ": " ++ em)),
              namespaceBuilt := true, threadStarted := true, threadDaemon := true,
              workerAbandoned := false }
          | _ =>
            match out' with
            | .finished ns =>
              match lookupNs function_name ns with
              | none =>
                { result := .error (.executionError
                    ("Function \x27" ++ function_name ++ "\x27 not found in code")),
                  namespaceBuilt := true, threadStarted := true,
                  threadDaemon := true, workerAbandoned := false }
              | some v =>
                if isCallable v then
                  { result := .ok v, namespaceBuilt := true, threadStarted := true,
                    threadDaemon := true, workerAbandoned := false }
                else
                  { result := .error (.executionError
                      ("\x27" ++ function_name ++ "\x27 is not callable")),
                    namespaceBuilt := true, threadStarted := true,
                    threadDaemon := true, workerAbandoned := false }
            | _ =>
              { result := .error (.timeoutError
                  ("Code definition timed out after " ++ toString timeout ++ " seconds")),
                namespaceBuilt := true, threadStarted := true, threadDaemon := true,
                workerAbandoned := true }

/-- A message on the inter-process result queue: the `("success", result)`
or `("error", message)` pairs put by the workers. -/
inductive ChanMsg where
  | successMsg (v : PyValue)
  | errorMsg (m : String)
deriving DecidableEq

/-- The `worker` closure of `execute_with_timeout` (sandbox.py lines
321-330): call the function and put `("success", result)`, or catch any
exception and put `("error", "Name: message")`.  No message is ever
produced when the call diverges or hard-crashes the process. -/
def worker (func : FuncDef) (args : List PyValue) : Option ChanMsg :=
  match callFn func args with
  | .returns' n => some (.successMsg (.vInt n))
  | .raisesExc en em => some (.errorMsg (en ++ ": " ++ em))
  | .diverges => none
  | .dies => none

/-- What is pickled into the spawned worker process: either the live
callable with its arguments (what `ctx.Process(target=worker, args=(func,
args, result_queue))` transmits), or re-executable state (source text,
target name and allowlist, as `_execute_in_process` would need). -/
inductive SpawnPayload where
  | liveCallable (func : FuncDef) (args : List PyValue)
  | reexecutable (code : Candidate) (function_name : String)
      (allowed_imports : List String) (args : List PyValue)
deriving DecidableEq

/-- States of one invocation: process spawned, worker running, and the
terminal phases (completed; graceful termination requested on timeout;
forced kill after the grace period; crashed without a result). -/
inductive InvState where
  | spawned
  | running
  | completed
  | timedOutGraceful
  | timedOutForced
  | crashed
deriving DecidableEq

/-- Result of `execute_with_timeout` as seen by the caller: the returned
value, a raised `SandboxError`, or an exception that is not part of the
sandbox taxonomy escaping uncaught (e.g. the `PicklingError` raised by
`process.start()` while serializing the payload). -/
inductive InvResult where
  | value (v : PyValue)
  | sandboxErr (e : SandboxErr)
  | uncaught (excName : String)
deriving DecidableEq

/-- Observable trace of one `execute_with_timeout` call: the caller-visible
result, the payload handed to the spawned process, whether `start()`
succeeded, whether `terminate()` was sent, the grace given to the
post-terminate `join` (line 342: one second), whether `kill()` was sent,
and the state sequence of the invocation. -/
structure InvTrace where
  result : InvResult
  payload : SpawnPayload
  processStarted : Bool
  terminateSent : Bool
  graceJoinSeconds : Nat
  killSent : Bool
  states : List InvState
deriving DecidableEq

/-- Whether the call diverges (so the worker process is necessarily still
alive when `process.join(timeout=timeout)` returns). -/
def callDiverges (func : FuncDef) (args : List PyValue) : Bool :=
  match callFn func args with
  | .diverges => true
  | _ => false

/-- Embedding of `execute_with_timeout(func, args, timeout)` (sandbox.py
lines 301-354).  `picklable` records whether the callable can be pickled
into the `spawn`-context child (`process.start()` raises `PicklingError`
otherwise, uncaught by this function); `slowWorker` is the race oracle for
a terminating worker still alive at the deadline; `exitsInGrace` tells
whether a terminated worker exits within the one-second grace join.  A
live process at the deadline is terminated, then killed if still alive,
and `TimeoutError` is raised without reading the queue; otherwise an empty
queue means the process died without a result (`ExecutionError`), and a
message is mapped to the value or to `ExecutionError`. -/
def execute_with_timeout (func : FuncDef) (picklable : Bool)
    (args : List PyValue) (timeout : Nat) (slowWorker exitsInGrace : Bool) :
    InvTrace :=
  let payload := SpawnPayload.liveCallable func args
  if picklable then
    let alive := callDiverges func args || slowWorker
    if alive then
      { result := .sandboxErr (.timeoutError
          ("Execution timed out after " ++ toString timeout ++ " seconds")),
        payload := payload, processStarted := true, terminateSent := true,
        graceJoinSeconds := 1, killSent := !exitsInGrace,
        states := if exitsInGrace then
            [.spawned, .running, .timedOutGraceful]
          else
            [.spawned, .running, .timedOutGraceful, .timedOutForced] }
    else
      match worker func args with
      | none =>
        { result := .sandboxErr (.executionError
            "Process ended without returning a result"),
          payload := payload, processStarted := true, terminateSent := false,
          graceJoinSeconds := 0, killSent := false,
          states := [.spawned, .running, .crashed] }
      | some (.successMsg v) =>
        { result := .value v, payload := payload, processStarted := true,
          terminateSent := false, graceJoinSeconds := 0, killSent := false,
          states := [.spawned, .running, .completed] }
      | some (.errorMsg m) =>
        { result := .sandboxErr (.executionError m), payload := payload,
          processStarted := true, terminateSent := false, graceJoinSeconds := 0,
          killSent := false, states := [.spawned, .running, .completed] }
  else
    { result := .uncaught "PicklingError", payload := payload,
      processStarted := false, terminateSent := false, graceJoinSeconds := 0,
      killSent := false, states := [] }

/-- Embedding of the helper `_execute_in_process(code, function_name,
allowed_imports, result_queue)` (sandbox.py lines 184-223): inside a worker
process it builds the restricted namespace, eagerly pre-imports, runs
`exec`, looks the target up, and puts `("success", None)` or an
`("error", ...)` message on the queue — the comment at line 219 records
that the function itself cannot be pickled, so only `None` is sent.  It is
defined in the source but never called by `execute_with_timeout`.  `none`
here means the worker never puts a message (a diverging exec). -/
def _execute_in_process (code : Candidate) (function_name : String)
    (allowed_imports hostModules : List String) : Option ChanMsg :=
  match code with
  | .invalid msg => some (.errorMsg ("SyntaxError: " ++ msg))
  | .prog stmts =>
    match execStmtList allowed_imports hostModules stmts
        (initialNamespace allowed_imports hostModules) with
    | .diverge => none
    | .raised en em => some (.errorMsg (en ++ ": " ++ em))
    | .finished ns =>
      match lookupNs function_name ns with
      | none => some (.errorMsg
          ("Function \x27" ++ function_name ++ "\x27 not found in code"))
      | some v =>
        if isCallable v then some (.successMsg .vNone)
        else some (.errorMsg ("\x27" ++ function_name ++ "\x27 is not callable"))

/-- Exception class name of an `execute_code` outcome, `none` on success. -/
def resultClass : Except SandboxErr PyValue → Option String
  | .error e => some e.className
  | .ok _ => none

/-- Whether a `running` state occurs anywhere after a `timedOutGraceful`
state in a state sequence (a reversion the invocation state machine must
never perform). -/
def runningAfterGraceful : List InvState → Bool
  | [] => false
  | .timedOutGraceful :: rest => rest.contains .running || runningAfterGraceful rest
  | _ :: rest => runningAfterGraceful rest

theorem checkImportNames_err_of_any (allowed_imports names : List String)
    (h : names.any (fun a => !(decide (rootName a ∈ allowed_imports))) = true) :
    ∃ m, checkNode.checkImportNames allowed_imports names
      = .error (.importViolationError m) := by
  induction names with
  | nil => simp at h
  | cons a rest ih =>
    by_cases ha : rootName a ∈ allowed_imports
    · simp only [List.any_cons, Bool.or_eq_true] at h
      rcases h with h1 | h2
      · simp [ha] at h1
      · rcases ih h2 with ⟨m, hm⟩
        refine ⟨m, ?_⟩
        simp only [checkNode.checkImportNames]
        rw [if_pos ha]
        exact hm
    · refine ⟨"Import \x27" ++ rootName a ++ "\x27 is not allowed. Allowed imports: "
        ++ pyStrListRepr allowed_imports, ?_⟩
      simp only [checkNode.checkImportNames]
      rw [if_neg ha]

theorem checkImportNames_ok_of_none (allowed_imports names : List String)
    (h : names.any (fun a => !(decide (rootName a ∈ allowed_imports))) = false) :
    checkNode.checkImportNames allowed_imports names = .ok () := by
  induction names with
  | nil => simp [checkNode.checkImportNames]
  | cons a rest ih =>
    simp only [List.any_cons, Bool.or_eq_false_iff] at h
    have ha : rootName a ∈ allowed_imports := by
      rcases h with ⟨h1, _⟩
      simpa using h1
    simp only [checkNode.checkImportNames]
    rw [if_pos ha]
    exact ih h.2

theorem checkNode_err_of_violates (allowed_imports : List String) (n : AstNode)
    (h : nodeViolates allowed_imports n = true) :
    ∃ m, checkNode allowed_imports n = .error (.importViolationError m) := by
  cases n with
  | importNode names =>
    exact checkImportNames_err_of_any allowed_imports names h
  | importFromNode mod names =>
    cases mod with
    | none => simp [nodeViolates] at h
    | some m =>
      simp only [nodeViolates, Bool.not_eq_true', decide_eq_false_iff_not] at h
      refine ⟨"Import from \x27" ++ rootName m ++ "\x27 is not allowed. Allowed imports: "
        ++ pyStrListRepr allowed_imports, ?_⟩
      simp only [checkNode]
      rw [if_neg h]
  | callNameNode f =>
    simp only [nodeViolates, decide_eq_true_eq] at h
    refine ⟨"Use of __import__() is not allowed. Allowed imports: "
      ++ pyStrListRepr allowed_imports, ?_⟩
    simp only [checkNode]
    rw [if_pos h]
  | callOtherNode => simp [nodeViolates] at h
  | otherNode => simp [nodeViolates] at h

theorem checkNode_ok_of_not_violates (allowed_imports : List String) (n : AstNode)
    (h : nodeViolates allowed_imports n = false) :
    checkNode allowed_imports n = .ok () := by
  cases n with
  | importNode names =>
    exact checkImportNames_ok_of_none allowed_imports names h
  | importFromNode mod names =>
    cases mod with
    | none => simp [checkNode]
    | some m =>
      simp only [nodeViolates, Bool.not_eq_false', decide_eq_true_eq] at h
      simp only [checkNode]
      rw [if_pos h]
  | callNameNode f =>
    simp only [nodeViolates, decide_eq_false_iff_not] at h
    simp only [checkNode]
    rw [if_neg h]
  | callOtherNode => simp [checkNode]
  | otherNode => simp [checkNode]

theorem checkWalk_err_of_any (allowed_imports : List String) (l : List AstNode)
    (h : anyViolates allowed_imports l = true) :
    ∃ m, checkWalk allowed_imports l = .error (.importViolationError m) := by
  induction l with
  | nil => simp [anyViolates] at h
  | cons n rest ih =>
    simp only [anyViolates, List.any_cons, Bool.or_eq_true] at h
    by_cases hn : nodeViolates allowed_imports n = true
    · rcases checkNode_err_of_violates allowed_imports n hn with ⟨m, hm⟩
      refine ⟨m, ?_⟩
      simp only [checkWalk]
      rw [hm]
    · have hn' : nodeViolates allowed_imports n = false := by
        simpa using hn
      rcases h with h1 | h2
      · exact absurd h1 hn
      · rcases ih h2 with ⟨m, hm⟩
        refine ⟨m, ?_⟩
        simp only [checkWalk]
        rw [checkNode_ok_of_not_violates allowed_imports n hn']
        exact hm

/-- C1 (amended): for every allowlist and syntax tree, if any node anywhere
in the tree — top level or arbitrarily nested — is a static import with a
non-allowlisted root name, an ImportFrom naming a non-allowlisted module,
or a direct call of `__import__`, then the walk of `_check_imports` rejects
with `ImportViolationError`; hence `execute_code` on such a program aborts
with `ImportViolationError` before the execution namespace is built.  The
original claim additionally asserted that an import form naming no module
is rejected by default; that part is false (see the counterexample): an
`ImportFrom` with `module = None` is skipped by the `if node.module:`
guard. -/
theorem c1_import_gate_rejects_disallowed_loads :
    (∀ (allowed_imports : List String) (forest : List PyAst),
      anyViolates allowed_imports (walkForest forest) = true →
      ∃ m, checkWalk allowed_imports (walkForest forest)
        = .error (.importViolationError m))
    ∧ (∀ (allowed_imports hostModules : List String) (stmts : List Stmt)
        (function_name : String) (timeout : Nat) (slowWorker : Bool),
      anyViolates allowed_imports (astNodesOfProg stmts) = true →
      ∃ m,
        (execute_code (.prog stmts) function_name allowed_imports hostModules
          timeout slowWorker).result = .error (.importViolationError m)
        ∧ (execute_code (.prog stmts) function_name allowed_imports hostModules
          timeout slowWorker).namespaceBuilt = false) := by
  constructor
  · intro allowed forest h
    exact checkWalk_err_of_any allowed _ h
  · intro allowed host stmts fname timeout slow h
    rcases checkWalk_err_of_any allowed _ h with ⟨m, hm⟩
    refine ⟨m, ?_, ?_⟩ <;>
      simp only [execute_code, _check_imports, hm, gateAbortTrace]

/-- C1 counterexample: the source `from . import x` is an import form
naming no module (`ImportFrom` with `module = None`); with the empty
allowlist the import gate accepts it, and `execute_code` on it proceeds
past the gate and builds the namespace — so unknown load constructs are
permitted, not rejected by default. -/
theorem c1_relative_import_permitted_counterexample :
    checkWalk [] (walkForest [PyAst.importFromNode none ["x"]]) = .ok ()
    ∧ (execute_code (.prog [.fromImport none ["x"]]) "f" [] [] 30
        false).namespaceBuilt = true := by
  constructor
  · simp only [walkForest, walkTree, List.append]
    rfl
  · rfl

/-- C1 witness: a disallowed import nested two block levels deep is
rejected by the walk, and `execute_code` on a program importing a
disallowed module aborts with `ImportViolationError` before building the
namespace. -/
theorem c1_import_gate_rejects_disallowed_loads_witness :
    (∃ m, checkWalk []
        (walkForest [PyAst.other [PyAst.other [PyAst.importNode ["os"]]]])
      = .error (.importViolationError m))
    ∧ (∃ m,
        (execute_code (.prog [.importS ["os"]]) "f" [] [] 30 false).result
          = .error (.importViolationError m)
        ∧ (execute_code (.prog [.importS ["os"]]) "f" [] [] 30
            false).namespaceBuilt = false) := by
  constructor
  · exact c1_import_gate_rejects_disallowed_loads.1 [] _ (by
      simp only [walkForest, walkTree, List.append]
      rfl)
  · exact c1_import_gate_rejects_disallowed_loads.2 [] [] [.importS ["os"]]
      "f" 30 false (by rfl)

/-- C4 (amended): for every syntactically invalid candidate, `execute_code`
raises `ExecutionError("Syntax error: ...")` from inside `_check_imports`,
before the execution namespace is built and before the worker thread is
started, so no partial side effects are observable.  The raised kind is
the generic `ExecutionError` class — the engine has no dedicated
syntax-error kind distinct from its runtime-failure kind. -/
theorem c4_syntax_error_aborts_before_namespace (msg function_name : String)
    (allowed_imports hostModules : List String) (timeout : Nat)
    (slowWorker : Bool) :
    (execute_code (.invalid msg) function_name allowed_imports hostModules
        timeout slowWorker).result
      = .error (.executionError ("Syntax error: " ++ msg))
    ∧ (execute_code (.invalid msg) function_name allowed_imports hostModules
        timeout slowWorker).namespaceBuilt = false
    ∧ (execute_code (.invalid msg) function_name allowed_imports hostModules
        timeout slowWorker).threadStarted = false :=
  ⟨rfl, rfl, rfl⟩

/-- C4 counterexample: on an unparsable candidate the engine raises
`ExecutionError` — the very same exception class it raises for a runtime
failure of a parsable candidate — so the claim that a distinct
`SyntaxInvalid` kind (not `RuntimeFailure`) is produced is false on the
code; only the message prefix "Syntax error:" distinguishes the cases. -/
theorem c4_syntax_error_same_class_counterexample :
    (execute_code (.invalid "invalid syntax (<string>, line 1)") "f" [] [] 30
        false).result
      = .error (.executionError "Syntax error: invalid syntax (<string>, line 1)")
    ∧ resultClass (execute_code (.invalid "invalid syntax (<string>, line 1)")
        "f" [] [] 30 false).result = some "ExecutionError"
    ∧ resultClass (execute_code (.prog [.raiseS "ValueError" "boom"]) "f" [] []
        30 false).result = some "ExecutionError" :=
  ⟨rfl, rfl, rfl⟩

/-- C5 (amended): after a successful definition (gate passed, exec finished
with namespace `ns`), a missing target symbol yields
`ExecutionError("Function ... not found in code")` and a present but
non-callable target yields `ExecutionError("... is not callable")`; both
use the same `ExecutionError` class as runtime failures — the engine has no
separate `TargetMissing` kind, the cases are distinguished by message
only. -/
theorem c5_missing_target_yields_execution_error (stmts : List Stmt)
    (function_name : String) (allowed_imports hostModules : List String)
    (timeout : Nat) (ns : Namespace)
    (hgate : _check_imports (.prog stmts) allowed_imports = .ok ())
    (hexec : execStmtList allowed_imports hostModules stmts
      (initialNamespace allowed_imports hostModules) = .finished ns) :
    (lookupNs function_name ns = none →
      (execute_code (.prog stmts) function_name allowed_imports hostModules
          timeout false).result
        = .error (.executionError
            ("Function \x27" ++ function_name ++ "\x27 not found in code")))
    ∧ (∀ v, lookupNs function_name ns = some v → isCallable v = false →
      (execute_code (.prog stmts) function_name allowed_imports hostModules
          timeout false).result
        = .error (.executionError
            ("\x27" ++ function_name ++ "\x27 is not callable"))) := by
  constructor
  · intro habs
    simp only [execute_code, hgate, hexec, habs]
    simp
  · intro v hv hnc
    simp only [execute_code, hgate, hexec, hv, hnc]
    simp

/-- C5 counterexample: a candidate defining only `g` with target `f`, and a
candidate binding `f` to a non-callable, both fail with `ExecutionError` —
the same exception class as a genuine runtime failure — so `TargetMissing`
is not a kind surfaced distinctly from `RuntimeFailure`. -/
theorem c5_target_missing_same_class_counterexample :
    (execute_code (.prog [.defFunc "g" .double]) "f" [] [] 30 false).result
      = .error (.executionError "Function \x27f\x27 not found in code")
    ∧ (execute_code (.prog [.assign "f" (.vInt 1)]) "f" [] [] 30 false).result
      = .error (.executionError "\x27f\x27 is not callable")
    ∧ resultClass (execute_code (.prog [.defFunc "g" .double]) "f" [] [] 30
        false).result = some "ExecutionError"
    ∧ resultClass (execute_code (.prog [.raiseS "ValueError" "boom"]) "f" []
        [] 30 false).result = some "ExecutionError" :=
  ⟨rfl, rfl, rfl, rfl⟩

/-- C5 witness: the amended theorem applied to the candidate defining only
`g` with requested target `f`. -/
theorem c5_missing_target_yields_execution_error_witness :
    (execute_code (.prog [.defFunc "g" .double]) "f" [] [] 30 false).result
      = .error (.executionError "Function \x27f\x27 not found in code") :=
  (c5_missing_target_yields_execution_error [.defFunc "g" .double] "f" [] []
    30 [("g", .vFunc .double false)] rfl rfl).1 rfl

/-- C3 (amended): when candidate code reaches the guarded dynamic-load hook
with a module whose root name is not allowlisted — e.g. by calling
`__import__` through an alias, which the static gate does not catch — the
hook raises the builtin `ImportError`, the definition executor catches it
like any other exception, and the engine surfaces
`ExecutionError("ImportError: Import ... is not allowed ...")`, i.e. the
runtime-failure kind, not the `ImportViolationError` kind produced by
static detection at the import gate. -/
theorem c3_dynamic_hook_surfaces_execution_error (m function_name : String)
    (allowed_imports hostModules : List String) (timeout : Nat)
    (hroot : rootName m ∉ allowed_imports) :
    (execute_code (.prog [.aliasImportCall m]) function_name allowed_imports
        hostModules timeout false).result
      = .error (.executionError
          ("ImportError: Import \x27" ++ rootName m
            ++ "\x27 is not allowed. Allowed imports: "
            ++ pyStrListRepr allowed_imports)) := by
  simp only [execute_code, _check_imports, astNodesOfProg, astNodesOfStmt,
    List.flatMap_cons, List.flatMap_nil, List.append_nil, checkWalk, checkNode,
    execStmtList, _restricted_import, hroot, if_false]
  simp [hroot, String.append_assoc]
  rw [← String.append_assoc "ImportError: " "Import \x27"]
  rfl

/-- C3 counterexample: with the empty allowlist, a candidate that reaches
the dynamic hook with module `os` via an aliased `__import__` call is
surfaced as `ExecutionError` (runtime failure), while static detection of
`import os` is surfaced as `ImportViolationError` — the two detection paths
do not produce the same kind, contradicting the claim. -/
theorem c3_dynamic_hook_kind_differs_counterexample :
    (execute_code (.prog [.aliasImportCall "os"]) "f" [] [] 30 false).result
      = .error (.executionError
          "ImportError: Import \x27os\x27 is not allowed. Allowed imports: []")
    ∧ resultClass (execute_code (.prog [.aliasImportCall "os"]) "f" [] [] 30
        false).result = some "ExecutionError"
    ∧ resultClass (execute_code (.prog [.importS ["os"]]) "f" [] [] 30
        false).result = some "ImportViolationError" :=
  ⟨rfl, rfl, rfl⟩

/-- C3 witness: the amended theorem applied to module `os` under the empty
allowlist. -/
theorem c3_dynamic_hook_surfaces_execution_error_witness :
    (execute_code (.prog [.aliasImportCall "os"]) "g" [] [] 10 false).result
      = .error (.executionError
          "ImportError: Import \x27os\x27 is not allowed. Allowed imports: []") :=
  c3_dynamic_hook_surfaces_execution_error "os" "g" [] [] 10 (by simp)

theorem lookupNs_preimport_fold_none (hostModules : List String) (m : String)
    (hroot : rootName m = m) (hhost : m ∉ hostModules) :
    ∀ (allowed_imports : List String) (acc : Namespace),
      lookupNs m acc = none →
      lookupNs m (allowed_imports.foldl
        (fun ns module_name =>
          match realImport hostModules module_name with
          | .ok v => bindNs module_name v ns
          | .error _ => ns) acc) = none := by
  intro allowed
  induction allowed with
  | nil =>
    intro acc h
    simpa using h
  | cons a rest ih =>
    intro acc h
    simp only [List.foldl_cons]
    apply ih
    by_cases hi : rootName a ∈ hostModules
    · simp only [realImport, if_pos hi, bindNs, lookupNs]
      by_cases ham : a = m
      · subst ham
        rw [hroot] at hi
        exact absurd hi hhost
      · rw [if_neg ham]
        exact h
    · simp only [realImport, if_neg hi]
      exact h

theorem lookupNs_initialNamespace_none (allowed_imports hostModules : List String)
    (m : String) (hroot : rootName m = m) (hhost : m ∉ hostModules) :
    lookupNs m (initialNamespace allowed_imports hostModules) = none := by
  simpa only [initialNamespace] using
    lookupNs_preimport_fold_none hostModules m hroot hhost allowed_imports [] rfl

/-- C10: an allowlisted (simple-named) module the host cannot import is
silently skipped by the eager pre-binding (`except ImportError: pass`): the
namespace holds no binding for it and construction reaches the exec phase
without error (the worker thread is started).  A candidate that then does
`import m` fails during definition with
`ExecutionError("ModuleNotFoundError: No module named ...")` — the runtime
failure carrying the class name and message of the import failure — and not with
`ImportViolationError`, since the allowlist check of the hook passes before the
real loader fails. -/
theorem c10_unimportable_allowlisted_module (m function_name : String)
    (allowed_imports hostModules : List String) (timeout : Nat)
    (hmem : m ∈ allowed_imports) (hroot : rootName m = m)
    (hhost : m ∉ hostModules) :
    lookupNs m (initialNamespace allowed_imports hostModules) = none
    ∧ (execute_code (.prog [.importS [m]]) function_name allowed_imports
        hostModules timeout false).threadStarted = true
    ∧ (execute_code (.prog [.importS [m]]) function_name allowed_imports
        hostModules timeout false).result
      = .error (.executionError
          ("ModuleNotFoundError: No module named \x27" ++ m ++ "\x27")) := by
  have hgate : _check_imports (.prog [Stmt.importS [m]]) allowed_imports = .ok () := by
    simp [_check_imports, astNodesOfProg, astNodesOfStmt, checkWalk, checkNode,
      checkNode.checkImportNames, hroot, hmem]
  refine ⟨lookupNs_initialNamespace_none allowed_imports hostModules m hroot hhost, ?_, ?_⟩
  · simp only [execute_code, hgate]
    simp [execStmtList, importModules, _restricted_import, realImport, hroot, hmem, hhost]
  · simp only [execute_code, hgate]
    simp [execStmtList, importModules, _restricted_import, realImport, hroot, hmem, hhost,
      String.append_assoc]
    rw [← String.append_assoc "ModuleNotFoundError: " "No module named \x27"]
    rfl

/-- C10 witness: allowlist `["numpy"]` on a host without `numpy`: no
pre-binding, the build raises nothing, and `import numpy` in the candidate
fails as a runtime `ModuleNotFoundError`, not a capability violation. -/
theorem c10_unimportable_allowlisted_module_witness :
    lookupNs "numpy" (initialNamespace ["numpy"] []) = none
    ∧ (execute_code (.prog [.importS ["numpy"]]) "f" ["numpy"] [] 30
        false).threadStarted = true
    ∧ (execute_code (.prog [.importS ["numpy"]]) "f" ["numpy"] [] 30
        false).result
      = .error (.executionError
          "ModuleNotFoundError: No module named \x27numpy\x27") :=
  c10_unimportable_allowlisted_module "numpy" "f" ["numpy"] [] 30
    (by simp) rfl (by simp)

/-- C2 (code evaluated at the claimed scenario): `execute_code` on
`def f(x): return x * 2` with empty allowlist and target `f` does return
the callable, but that callable is a function object created by `exec` in a
throwaway namespace and is therefore not picklable; `execute_with_timeout`
hands it to a `spawn`-context `Process`, whose `start()` must pickle it, so
the call dies with an uncaught `PicklingError` before any worker runs —
`Success(6)` is never produced.  The final conjunct shows that the worker
body itself would compute `("success", 6)` were the callable transferable,
which is what the claim (and the spec scenario) intended. -/
theorem c2_scenario_pickling_crash :
    (execute_code (.prog [.defFunc "f" .double]) "f" [] [] 30 false).result
      = .ok (.vFunc .double false)
    ∧ (execute_with_timeout .double false [.vInt 3] 5 false false).result
      = .uncaught "PicklingError"
    ∧ (execute_with_timeout .double false [.vInt 3] 5 false false).processStarted
      = false
    ∧ worker .double [.vInt 3] = some (.successMsg (.vInt 6)) :=
  ⟨rfl, rfl, rfl, rfl⟩

/-- C9 (code evaluated at the failing input): the payload
`execute_with_timeout` pickles into the spawned process is the live
callable together with its arguments — `ctx.Process(target=worker,
args=(func, args, result_queue))` — not re-executable state; the helper
`_execute_in_process`, which would re-run the namespace builder and
definition executor from source inside the worker (and, unable to pickle
the resulting function, would send `("success", None)`), exists in the
source but is never invoked by `execute_with_timeout`. -/
theorem c9_live_callable_crosses_process_boundary :
    (execute_code (.prog [.defFunc "f" .double]) "f" [] [] 30 false).result
      = .ok (.vFunc .double false)
    ∧ (execute_with_timeout .double false [.vInt 3] 5 false false).payload
      = .liveCallable .double [.vInt 3]
    ∧ _execute_in_process (.prog [.defFunc "f" .double]) "f" [] []
      = some (.successMsg .vNone) :=
  ⟨rfl, rfl, rfl⟩

/-- C6: at both tiers, whenever the budget elapses before the worker has
completed — because the worker diverges, or because a terminating worker is
still running at the deadline (the race oracle), in which case its result
may already be queued — the outcome is `TimeoutError` and never a Success.
At the definition tier the stuck worker thread is a daemon thread that is
abandoned (no second join, no kill) rather than forcibly joined. -/
theorem c6_budget_elapsed_yields_timeout :
    (∀ (stmts : List Stmt) (function_name : String)
        (allowed_imports hostModules : List String) (timeout : Nat)
        (slowWorker : Bool),
      _check_imports (.prog stmts) allowed_imports = .ok () →
      (execStmtList allowed_imports hostModules stmts
          (initialNamespace allowed_imports hostModules) = .diverge
        ∨ slowWorker = true) →
      (execute_code (.prog stmts) function_name allowed_imports hostModules
          timeout slowWorker).result
        = .error (.timeoutError ("Code definition timed out after "
            ++ toString timeout ++ " seconds"))
      ∧ (execute_code (.prog stmts) function_name allowed_imports hostModules
          timeout slowWorker).threadDaemon = true
      ∧ (execute_code (.prog stmts) function_name allowed_imports hostModules
          timeout slowWorker).workerAbandoned = true
      ∧ ∀ v, (execute_code (.prog stmts) function_name allowed_imports
          hostModules timeout slowWorker).result ≠ .ok v)
    ∧ (∀ (func : FuncDef) (args : List PyValue) (timeout : Nat)
        (slowWorker exitsInGrace : Bool),
      (callDiverges func args || slowWorker) = true →
      (execute_with_timeout func true args timeout slowWorker exitsInGrace).result
        = .sandboxErr (.timeoutError ("Execution timed out after "
            ++ toString timeout ++ " seconds"))
      ∧ ∀ v, (execute_with_timeout func true args timeout slowWorker
          exitsInGrace).result ≠ .value v) := by
  constructor
  · intro stmts fname allowed host timeout slow hgate halive
    rcases halive with hd | hs
    · simp [execute_code, hgate, hd]
    · subst hs
      cases hout : execStmtList allowed host stmts (initialNamespace allowed host) with
      | finished ns => simp [execute_code, hgate, hout]
      | raised en em => simp [execute_code, hgate, hout]
      | diverge => simp [execute_code, hgate, hout]
  · intro func args timeout slow exits halive
    simp [execute_with_timeout, halive]

/-- C6 witness: a definition-time infinite loop is timed out on an
abandoned daemon thread; a diverging invocation is timed out; and a
terminating invocation whose result message raced the deadline (the worker
put `("success", 6)` but was still alive at the join) is still timed out,
not turned into a Success. -/
theorem c6_budget_elapsed_yields_timeout_witness :
    ((execute_code (.prog [.whileTrue]) "f" [] [] 7 false).result
        = .error (.timeoutError "Code definition timed out after 7 seconds")
      ∧ (execute_code (.prog [.whileTrue]) "f" [] [] 7 false).threadDaemon = true
      ∧ (execute_code (.prog [.whileTrue]) "f" [] [] 7 false).workerAbandoned = true)
    ∧ (execute_with_timeout .looper true [] 9 false false).result
        = .sandboxErr (.timeoutError "Execution timed out after 9 seconds")
    ∧ (execute_with_timeout (.constFn 6) true [] 9 true true).result
        = .sandboxErr (.timeoutError "Execution timed out after 9 seconds") := by
  refine ⟨?_, ?_, ?_⟩
  · have h := c6_budget_elapsed_yields_timeout.1 [.whileTrue] "f" [] [] 7 false
      rfl (Or.inl rfl)
    exact ⟨h.1, h.2.1, h.2.2.1⟩
  · exact (c6_budget_elapsed_yields_timeout.2 .looper [] 9 false false rfl).1
  · exact (c6_budget_elapsed_yields_timeout.2 (.constFn 6) [] 9 true true rfl).1

/-- C7: the invocation state machine.  The state sequence of an invocation is
`Spawned, Running` followed by `Completed`, `Crashed`, `TimedOut-Graceful`
or `TimedOut-Graceful, TimedOut-Forced`; a `running` state never occurs
after `timedOutGraceful`; on timeout, `terminate()` is sent first, the
grace join is bounded at one second, `kill()` is sent exactly when the
worker does not exit within the grace period, and the caller receives the
same `TimeoutError` result whether termination was graceful or forced (last
conjunct: the result does not depend on `exitsInGrace`). -/
theorem c7_invocation_state_machine (func : FuncDef) (args : List PyValue)
    (timeout : Nat) (slowWorker exitsInGrace : Bool) :
    ((execute_with_timeout func true args timeout slowWorker exitsInGrace).states
        = [.spawned, .running, .completed]
      ∨ (execute_with_timeout func true args timeout slowWorker exitsInGrace).states
        = [.spawned, .running, .crashed]
      ∨ (execute_with_timeout func true args timeout slowWorker exitsInGrace).states
        = [.spawned, .running, .timedOutGraceful]
      ∨ (execute_with_timeout func true args timeout slowWorker exitsInGrace).states
        = [.spawned, .running, .timedOutGraceful, .timedOutForced])
    ∧ runningAfterGraceful
        (execute_with_timeout func true args timeout slowWorker exitsInGrace).states
      = false
    ∧ ((callDiverges func args || slowWorker) = true →
        (execute_with_timeout func true args timeout slowWorker
            exitsInGrace).terminateSent = true
        ∧ (execute_with_timeout func true args timeout slowWorker
            exitsInGrace).graceJoinSeconds = 1
        ∧ (execute_with_timeout func true args timeout slowWorker
            exitsInGrace).killSent = !exitsInGrace
        ∧ (execute_with_timeout func true args timeout slowWorker
            exitsInGrace).states
          = (if exitsInGrace then [.spawned, .running, .timedOutGraceful]
             else [.spawned, .running, .timedOutGraceful, .timedOutForced])
        ∧ (execute_with_timeout func true args timeout slowWorker
            exitsInGrace).result
          = .sandboxErr (.timeoutError ("Execution timed out after "
              ++ toString timeout ++ " seconds")))
    ∧ (execute_with_timeout func true args timeout slowWorker true).result
        = (execute_with_timeout func true args timeout slowWorker false).result := by
  by_cases halive : (callDiverges func args || slowWorker) = true
  · cases exitsInGrace <;>
      simp [execute_with_timeout, halive, runningAfterGraceful]
  · have halive2 : (callDiverges func args || slowWorker) = false := by
      simpa using halive
    cases hw : worker func args with
    | none =>
      cases exitsInGrace <;>
        simp [execute_with_timeout, halive2, hw, runningAfterGraceful]
    | some msg =>
      cases msg with
      | successMsg v =>
        cases exitsInGrace <;>
          simp [execute_with_timeout, halive2, hw, runningAfterGraceful]
      | errorMsg em =>
        cases exitsInGrace <;>
          simp [execute_with_timeout, halive2, hw, runningAfterGraceful]

/-- C7 witness: a diverging invocation whose worker ignores the graceful
terminate: terminate is sent, the grace join is one second, the kill is
escalated, and the caller sees the plain `TimeoutError`. -/
theorem c7_invocation_state_machine_witness :
    (execute_with_timeout .looper true [] 4 false false).terminateSent = true
    ∧ (execute_with_timeout .looper true [] 4 false false).graceJoinSeconds = 1
    ∧ (execute_with_timeout .looper true [] 4 false false).killSent = true
    ∧ (execute_with_timeout .looper true [] 4 false false).states
      = [.spawned, .running, .timedOutGraceful, .timedOutForced]
    ∧ (execute_with_timeout .looper true [] 4 false false).result
      = .sandboxErr (.timeoutError "Execution timed out after 4 seconds") := by
  have h := (c7_invocation_state_machine .looper [] 4 false false).2.2.1 rfl
  exact ⟨h.1, h.2.1, h.2.2.1, h.2.2.2.1, h.2.2.2.2⟩

/-- C8: if the invocation worker exits before the budget elapses without
ever putting a message on the result queue (a hard crash), the caller gets
`ExecutionError("Process ended without returning a result")` — never a
Success and never a `TimeoutError`. -/
theorem c8_crash_without_message_is_execution_error (func : FuncDef)
    (args : List PyValue) (timeout : Nat) (exitsInGrace : Bool)
    (hdies : callFn func args = .dies) :
    (execute_with_timeout func true args timeout false exitsInGrace).result
      = .sandboxErr (.executionError "Process ended without returning a result")
    ∧ (∀ v, (execute_with_timeout func true args timeout false
        exitsInGrace).result ≠ .value v)
    ∧ (∀ s, (execute_with_timeout func true args timeout false
        exitsInGrace).result ≠ .sandboxErr (.timeoutError s)) := by
  have hcd : callDiverges func args = false := by
    simp [callDiverges, hdies]
  have hw : worker func args = none := by
    simp [worker, hdies]
  simp [execute_with_timeout, hcd, hw]

/-- C8 witness: the hard-crashing callable, invoked with a three-second
budget, is reported as the distinguishing `ExecutionError`. -/
theorem c8_crash_without_message_is_execution_error_witness :
    (execute_with_timeout .dier true [] 3 false true).result
      = .sandboxErr (.executionError "Process ended without returning a result") :=
  (c8_crash_without_message_is_execution_error .dier [] 3 true rfl).1
